import Mathlib

/-!
# Verification of the costco-go token lifecycle and transport layer

Shallow embedding of the token lifecycle manager, transport executor and
response-shape resolver of `pkg/costco` (current sources: `client.go` as of
v0.1.1+, i.e. the variant with structured logging and the object-first
receipts fallback documented in CHANGELOG 0.1.1, plus `config.go`).

Modelling conventions:
* Go `time.Time` / `time.Duration` are modelled as `Int` nanosecond counts
  (`Instant` / `Duration`); `time.Now().After(e)` is strict `now > e`,
  exactly as in Go.
* The network is an oracle: an `AuthEnv` records what the token endpoint
  would reply to a password-grant and to a refresh-grant request, whether
  `SaveTokens` would succeed, the current instant, and the outcome of
  `jwt.ParseUnverified` on any token string.  The functions below are
  word-for-word translations of the Go control flow over that oracle.
* Each operation returns, besides its `error` result and the updated
  in-memory client state, the ordered list of observable `Event`s it
  performed: lock acquisitions/releases, network calls, credential
  replacement, persistence, warning logs.  Lock and network claims are
  stated over these traces.
* `fmt.Errorf` messages are kept (without the interpolated `%w`/`%v`
  payloads) so that distinct Go error returns stay distinct.
-/

namespace Costco

/-- Go `time.Duration`: nanoseconds. -/
abbrev Duration := Int

/-- Go `time.Time` (wall clock): nanoseconds since the Unix epoch. -/
abbrev Instant := Int

/-- Nanoseconds per second (Go `time.Second`). -/
def nsPerSecond : Int := 1000000000

/-- Go `time.Minute`. -/
def minute : Duration := 60 * nsPerSecond

/-- `TokenResponse` (types.go): body of a successful token-endpoint reply. -/
structure TokenResponse where
  idToken : String
  tokenType : String
  notBefore : Int
  clientInfo : String
  scope : String
  refreshToken : String
  refreshTokenExpiresIn : Int
deriving DecidableEq, Repr

/-- `Config` (options.go): client configuration.  The optional `Logger` is
behaviourally irrelevant (logging only) and omitted. -/
structure Config where
  email : String
  password : String
  warehouseNumber : String
  tokenRefreshBuffer : Duration
deriving DecidableEq, Repr

/-- The mutable fields of `Client` (client.go) guarded by `mu`:
`token *TokenResponse` and `tokenExpiry time.Time`. -/
structure ClientState where
  token : Option TokenResponse
  tokenExpiry : Instant
deriving DecidableEq, Repr

/-- Outcome of `new(jwt.Parser).ParseUnverified(tokenString, jwt.MapClaims{})`
followed by the `claims["exp"].(float64)` assertion (client.go,
`calculateTokenExpiry`).  The jwt library is external code, so its verdict on
a given token string is part of the environment:
* `parseError` — `ParseUnverified` returned a non-nil error;
* `noNumericExp` — parsed, but no `exp` claim of numeric (float64) type;
* `expClaim e` — numeric `exp` claim whose `int64` truncation is `e`
  (seconds since the epoch). -/
inductive JwtExp where
  | parseError
  | noNumericExp
  | expClaim (e : Int)
deriving DecidableEq, Repr

/-- One reply of the token endpoint as observed by the client:
either `httpClient.Do` itself fails (`transportError`), or a response with a
status code arrives whose body decodes to a `TokenResponse` (`some`) or fails
to decode (`none`; the decode is only attempted on status 200). -/
inductive TokenEndpointReply where
  | transportError
  | response (status : Int) (decoded : Option TokenResponse)
deriving DecidableEq, Repr

/-- The environment of one single-threaded lifecycle operation: the fixed
configuration, the current instant, the token endpoint's replies to a
password-grant (`authReply`) and a refresh-grant (`refreshReply`) request,
whether `SaveTokens` would succeed, and the jwt parse oracle. -/
structure AuthEnv where
  config : Config
  now : Instant
  authReply : TokenEndpointReply
  refreshReply : TokenEndpointReply
  saveOk : Bool
  parseExp : String → JwtExp

/-- Which grant a token-endpoint call carries (`grant_type` form field). -/
inductive GrantKind where
  | password
  | refresh
deriving DecidableEq, Repr

/-- Observable events of a lifecycle/transport operation, in program order. -/
inductive Event where
  /-- `c.httpClient.Do` on the token endpoint (authenticate / refreshToken). -/
  | netTokenCall (g : GrantKind)
  /-- `c.httpClient.Do` on the GraphQL endpoint (executeGraphQL). -/
  | netGraphQLCall
  /-- `c.mu.RLock()`. -/
  | lockR
  /-- `c.mu.RUnlock()`. -/
  | unlockR
  /-- `c.mu.Lock()`. -/
  | lockW
  /-- `c.mu.Unlock()`. -/
  | unlockW
  /-- `c.token = &tokenResp; c.tokenExpiry = ...` (credential replacement). -/
  | setCredential
  /-- `SaveTokens(storedTokens)` (attempted persistence). -/
  | persist
  /-- the `Warn`-level log emitted when `SaveTokens` fails. -/
  | warnLog
deriving DecidableEq, Repr

instance {ε α : Type} [DecidableEq ε] [DecidableEq α] : DecidableEq (Except ε α) := fun a b =>
  match a, b with
  | .ok x, .ok y =>
      if h : x = y then .isTrue (by rw [h]) else .isFalse (by simp [h])
  | .error x, .error y =>
      if h : x = y then .isTrue (by rw [h]) else .isFalse (by simp [h])
  | .ok _, .error _ => .isFalse (by simp)
  | .error _, .ok _ => .isFalse (by simp)

/-- Result triple of a lifecycle operation: the Go `error` return (modelled
as `Except String Unit` carrying the `fmt.Errorf` format string), the client
state after the call, and the event trace. -/
structure OpOutcome where
  result : Except String Unit
  state : ClientState
  events : List Event
deriving DecidableEq, Repr

/-- `calculateTokenExpiry` (client.go): expiry-claim instant minus the
configured refresh buffer when a numeric `exp` claim is available, otherwise
`time.Now().Add(50 * time.Minute)`.  `time.Unix(int64(exp), 0)` is
`e * nsPerSecond`. -/
def calculateTokenExpiry (cfg : Config) (now : Instant) (parsed : JwtExp) : Instant :=
  match parsed with
  | .parseError => now + 50 * minute
  | .noNumericExp => now + 50 * minute
  | .expClaim e => e * nsPerSecond - cfg.tokenRefreshBuffer

/-- `authenticate` (client.go): POST the password grant to the token
endpoint; fail on transport error, non-200 status or undecodable body;
otherwise replace the credential under the write lock, then attempt
`SaveTokens` — a save failure is only logged (`warnLog`), never returned. -/
def authenticate (env : AuthEnv) (s : ClientState) : OpOutcome :=
  match env.authReply with
  | .transportError =>
      ⟨.error "executing auth request", s, [.netTokenCall .password]⟩
  | .response status decoded =>
      if status ≠ 200 then
        ⟨.error "auth failed with status", s, [.netTokenCall .password]⟩
      else
        match decoded with
        | none => ⟨.error "decoding token response", s, [.netTokenCall .password]⟩
        | some tokenResp =>
            let expiry := calculateTokenExpiry env.config env.now (env.parseExp tokenResp.idToken)
            ⟨.ok (), ⟨some tokenResp, expiry⟩,
              [.netTokenCall .password, .lockW, .setCredential, .unlockW, .persist]
                ++ (if env.saveOk then [] else [.warnLog])⟩

/-- `refreshToken` (client.go): read the refresh token under the read lock,
POST the refresh grant; on transport error or undecodable 200 body the error
is returned as-is; on a non-200 status the call falls back to
`c.authenticate()`; on success the credential is replaced under the write
lock and persistence is attempted (failure only logged). -/
def refreshToken (env : AuthEnv) (s : ClientState) : OpOutcome :=
  let pre : List Event := [.lockR, .unlockR, .netTokenCall .refresh]
  match env.refreshReply with
  | .transportError =>
      ⟨.error "executing refresh request", s, pre⟩
  | .response status decoded =>
      if status ≠ 200 then
        let a := authenticate env s
        ⟨a.result, a.state, pre ++ a.events⟩
      else
        match decoded with
        | none => ⟨.error "decoding refresh response", s, pre⟩
        | some tokenResp =>
            let expiry := calculateTokenExpiry env.config env.now (env.parseExp tokenResp.idToken)
            ⟨.ok (), ⟨some tokenResp, expiry⟩,
              pre ++ [.lockW, .setCredential, .unlockW, .persist]
                ++ (if env.saveOk then [] else [.warnLog])⟩

/-- `hasRefreshToken` predicate of `refreshTokenIfNeeded`:
`c.token != nil && c.token.RefreshToken != ""`. -/
def hasRefreshToken (s : ClientState) : Bool :=
  match s.token with
  | some t => t.refreshToken != ""
  | none => false

/-- `needsRefresh` predicate of `refreshTokenIfNeeded`:
`c.token == nil || time.Now().After(c.tokenExpiry)` (strict `after`). -/
def needsRefresh (env : AuthEnv) (s : ClientState) : Bool :=
  s.token.isNone || decide (env.now > s.tokenExpiry)

/-- `refreshTokenIfNeeded` (client.go): under the read lock compute
`needsRefresh` and `hasRefreshToken`; if the credential is still fresh return
immediately (the near-expiry warning log is behaviour-neutral and omitted);
otherwise refresh when a refresh token exists, else authenticate. -/
def refreshTokenIfNeeded (env : AuthEnv) (s : ClientState) : OpOutcome :=
  let pre : List Event := [.lockR, .unlockR]
  if !needsRefresh env s then
    ⟨.ok (), s, pre⟩
  else if hasRefreshToken s then
    let r := refreshToken env s
    ⟨r.result, r.state, pre ++ r.events⟩
  else
    let a := authenticate env s
    ⟨a.result, a.state, pre ++ a.events⟩

/-- `true` for the token-endpoint network calls. -/
def isTokenCall : Event → Bool
  | .netTokenCall _ => true
  | _ => false

/-- `true` for the GraphQL-endpoint network calls. -/
def isGqlCall : Event → Bool
  | .netGraphQLCall => true
  | _ => false

/-- `true` for the credential-replacement event. -/
def isSetCredential : Event → Bool
  | .setCredential => true
  | _ => false

/-- `true` for the persistence attempt. -/
def isPersist : Event → Bool
  | .persist => true
  | _ => false

/-- Number of token-endpoint network calls in a trace. -/
def tokenCalls (es : List Event) : Nat :=
  es.countP isTokenCall

/-- Number of GraphQL-endpoint network calls in a trace. -/
def gqlCalls (es : List Event) : Nat :=
  es.countP isGqlCall

/-- `true` when the token endpoint replied with a status other than 200 —
the only refresh outcome that makes `refreshToken` fall back to
`authenticate`. -/
def isNon200 : TokenEndpointReply → Bool
  | .response st _ => st != 200
  | .transportError => false

/-! ## Transport executor (`executeGraphQL`) -/

/-- One reply of the GraphQL endpoint for a call with decode target `α`:
`transportError` when `httpClient.Do` fails, otherwise a status code plus the
result of decoding the body into the `{data, errors}` envelope with `data`
deserialized into the target — `none` when the decode fails (body shape does
not fit the target), `some (a, errs)` when it yields data `a` and the
`errors` message list `errs`. -/
inductive GraphQLReply (α : Type) where
  | transportError
  | response (status : Int) (body : Option (α × List String))
deriving DecidableEq, Repr

/-- The distinct `error` returns of `executeGraphQL` (client.go), in source
order of the checks.  `nilTokenPanic` models the nil-pointer dereference of
`c.token.IDToken` that Go would hit if the credential were still `nil` after
a successful `refreshTokenIfNeeded`. -/
inductive GQLError where
  | tokenRefresh (e : String)
  | nilTokenPanic
  | transport
  | httpStatus (code : Int)
  | decode
  | graphqlErrors (msgs : List String)
deriving DecidableEq, Repr

/-- Result triple of `executeGraphQL` with decode target `α`. -/
structure GQLOutcome (α : Type) where
  result : Except GQLError α
  state : ClientState
  events : List Event

/-- `executeGraphQL` (client.go): run `refreshTokenIfNeeded` (propagating its
error as "token refresh failed"), read `c.token.IDToken` under the read lock,
POST the query, fail on transport error / non-200 status / decode failure,
and treat a non-empty `errors` array in a 200 response as a failure carrying
all the error messages; only otherwise is the decoded target returned. -/
def executeGraphQL {α : Type} (env : AuthEnv) (reply : GraphQLReply α)
    (s : ClientState) : GQLOutcome α :=
  let r := refreshTokenIfNeeded env s
  match r.result with
  | .error e => ⟨.error (.tokenRefresh e), r.state, r.events⟩
  | .ok () =>
      match r.state.token with
      | none => ⟨.error .nilTokenPanic, r.state, r.events ++ [.lockR]⟩
      | some _ =>
          let ev := r.events ++ [.lockR, .unlockR, .netGraphQLCall]
          match reply with
          | .transportError => ⟨.error .transport, r.state, ev⟩
          | .response status body =>
              if status ≠ 200 then ⟨.error (.httpStatus status), r.state, ev⟩
              else
                match body with
                | none => ⟨.error .decode, r.state, ev⟩
                | some (a, errs) =>
                    if errs.length > 0 then ⟨.error (.graphqlErrors errs), r.state, ev⟩
                    else ⟨.ok a, r.state, ev⟩

/-! ## Response shape resolver (`GetReceipts`) -/

/-- `Receipt` (types.go).  Only the barcode is carried: the remaining fields
(warehouse metadata, float-valued totals, item/tender arrays) are pure
payload that the decode/fallback logic never inspects. -/
structure Receipt where
  transactionBarcode : String
deriving DecidableEq, Repr

/-- `ReceiptsWithCountsResponse` (types.go). -/
structure ReceiptsWithCountsResponse where
  inWarehouse : Int
  gasStation : Int
  carWash : Int
  gasAndCarWash : Int
  receipts : List Receipt
deriving DecidableEq, Repr

/-- The shape of the `receiptsWithCounts` payload the upstream actually sent
in one response body: a bare object, an array, or something that fits
neither target. -/
inductive ReceiptsData where
  | objectShape (r : ReceiptsWithCountsResponse)
  | arrayShape (rs : List ReceiptsWithCountsResponse)
  | malformed
deriving DecidableEq, Repr

/-- Decoding a response body with the object target
(`ReceiptsWithCounts ReceiptsWithCountsResponse`): succeeds iff the payload
is a bare object. -/
def decodeReceiptsObject : ReceiptsData → Option ReceiptsWithCountsResponse
  | .objectShape r => some r
  | _ => none

/-- Decoding a response body with the array target
(`ReceiptsWithCounts []ReceiptsWithCountsResponse`): succeeds iff the payload
is an array. -/
def decodeReceiptsArray : ReceiptsData → Option (List ReceiptsWithCountsResponse)
  | .arrayShape rs => some rs
  | _ => none

/-- One GraphQL reply for the receipts query, before choosing a decode
target: transport failure, or a status code with an optional decoded
envelope carrying the raw payload shape and the `errors` messages. -/
inductive ReceiptsReply where
  | transportError
  | response (status : Int) (body : Option (ReceiptsData × List String))
deriving DecidableEq, Repr

/-- Specialize a raw receipts reply to a decode target: the envelope decode
of `executeGraphQL` fails iff the body was undecodable or the payload shape
does not fit the chosen target. -/
def toGraphQLReply {α : Type} (dec : ReceiptsData → Option α) :
    ReceiptsReply → GraphQLReply α
  | .transportError => .transportError
  | .response status body =>
      .response status (body.bind fun p => (dec p.1).map fun a => (a, p.2))

/-- Environment of one `GetReceipts` call: the lifecycle environment plus the
upstream's reply to the first (object-decoded) and, if issued, the second
(array-decoded) query. -/
structure ReceiptsEnv where
  auth : AuthEnv
  reply1 : ReceiptsReply
  reply2 : ReceiptsReply

/-- The `error` returns of `GetReceipts` (client.go). -/
inductive ReceiptsError where
  /-- "failed to decode as object: %v, and as array: %v". -/
  | combined (e1 e2 : GQLError)
  /-- "no receipt data returned". -/
  | noData
deriving DecidableEq, Repr

/-- Result triple of `GetReceipts`. -/
structure ReceiptsOutcome where
  result : Except ReceiptsError ReceiptsWithCountsResponse
  state : ClientState
  events : List Event
deriving DecidableEq, Repr

/-- The first `executeGraphQL` call site of `GetReceipts` (client.go,
v0.1.1+): the query decoded with the object target `resultObject`. -/
def receiptsFirstCall (env : ReceiptsEnv) (s : ClientState) :
    GQLOutcome ReceiptsWithCountsResponse :=
  executeGraphQL env.auth (toGraphQLReply decodeReceiptsObject env.reply1) s

/-- The fallback `executeGraphQL` call site of `GetReceipts`: the re-issued
query decoded with the array target `resultArray`, from the state left by
the first call. -/
def receiptsSecondCall (env : ReceiptsEnv) (s : ClientState) :
    GQLOutcome (List ReceiptsWithCountsResponse) :=
  executeGraphQL env.auth (toGraphQLReply decodeReceiptsArray env.reply2)
    (receiptsFirstCall env s).state

/-- `GetReceipts` (client.go, v0.1.1+): try the object format first; on any
error from that first call, re-issue the query decoding as an array and
return element zero of a non-empty result (empty array → "no receipt data
returned", both calls failed → combined error). -/
def GetReceipts (env : ReceiptsEnv) (s : ClientState) : ReceiptsOutcome :=
  let first := receiptsFirstCall env s
  match first.result with
  | .ok resultObject =>
      ⟨.ok resultObject, first.state, first.events⟩
  | .error e1 =>
      let second := receiptsSecondCall env s
      match second.result with
      | .error e2 =>
          ⟨.error (.combined e1 e2), second.state, first.events ++ second.events⟩
      | .ok rs =>
          match rs with
          | [] => ⟨.error .noData, second.state, first.events ++ second.events⟩
          | r :: _ => ⟨.ok r, second.state, first.events ++ second.events⟩

/-! ## Credential persistence (`config.go`) -/

/-- `StoredTokens` (options.go): the on-disk credential record. -/
structure StoredTokens where
  idToken : String
  refreshToken : String
  tokenExpiry : Instant
  refreshTokenExpiresAt : Instant
  updatedAt : Instant
deriving DecidableEq, Repr

/-- One JSON field value of the token file: a string-typed or a
timestamp-typed value (Go marshals `time.Time` as an RFC3339 string that
denotes exactly the stored instant). -/
inductive JField where
  | s (v : String)
  | t (v : Instant)
deriving DecidableEq, Repr

/-- A marshalled JSON object: ordered key/value pairs. -/
abbrev JsonDoc := List (String × JField)

/-- `json.MarshalIndent` of a `StoredTokens` value, with the `json:` tags of
options.go as keys. -/
def marshalStoredTokens (tk : StoredTokens) : JsonDoc :=
  [("id_token", .s tk.idToken),
   ("refresh_token", .s tk.refreshToken),
   ("token_expiry", .t tk.tokenExpiry),
   ("refresh_token_expires_at", .t tk.refreshTokenExpiresAt),
   ("updated_at", .t tk.updatedAt)]

/-- Extract a string-typed field: a missing key yields the zero value `""`
(Go `json.Unmarshal` leaves absent fields untouched), a key bound to a
non-string value is a type error (`none`). -/
def jsonFieldS (doc : JsonDoc) (key : String) : Option String :=
  match doc.lookup key with
  | none => some ""
  | some (.s v) => some v
  | some (.t _) => none

/-- Extract a timestamp-typed field: a missing key yields the zero time,
a key bound to a non-timestamp value is a type error. -/
def jsonFieldT (doc : JsonDoc) (key : String) : Option Instant :=
  match doc.lookup key with
  | none => some 0
  | some (.t v) => some v
  | some (.s _) => none

/-- `json.Unmarshal` of the token file into `StoredTokens`: fails only on a
type mismatch, missing fields default to zero values. -/
def unmarshalStoredTokens (doc : JsonDoc) : Option StoredTokens :=
  match jsonFieldS doc "id_token", jsonFieldS doc "refresh_token",
      jsonFieldT doc "token_expiry", jsonFieldT doc "refresh_token_expires_at",
      jsonFieldT doc "updated_at" with
  | some a, some b, some c, some d, some e => some ⟨a, b, c, d, e⟩
  | _, _, _, _, _ => none

/-- The token file `~/.costco/tokens.json`: `none` when absent. -/
structure TokenStore where
  file : Option JsonDoc
deriving DecidableEq, Repr

/-- `SaveTokens` (config.go): overwrite `tokens.UpdatedAt` with the current
time, then write the marshalled record over the whole file.  Returns the
mutated record (Go mutates the pointee in place) and the new store.  The
environmental failure modes (`ensureConfigDir` / `WriteFile` errors) leave
the data path unchanged and are outside this model. -/
def SaveTokens (now : Instant) (tokens : StoredTokens) (store : TokenStore) :
    StoredTokens × TokenStore :=
  let tokens' := { tokens with updatedAt := now }
  (tokens', { store with file := some (marshalStoredTokens tokens') })

/-- `LoadTokens` (config.go): a missing file is `(nil, nil)`; an existing
file is unmarshalled, a type-mismatching file is an error. -/
def LoadTokens (store : TokenStore) : Except Unit (Option StoredTokens) :=
  match store.file with
  | none => .ok none
  | some doc =>
      match unmarshalStoredTokens doc with
      | none => .error ()
      | some tk => .ok (some tk)

/-! ## Lock-discipline scanners over event traces -/

/-- Scans a trace with the current write-lock state `held`: `true` iff every
event satisfying `p` occurs while the write lock is held. -/
def underWriteLock (p : Event → Bool) : Bool → List Event → Bool
  | _, [] => true
  | _, .lockW :: es => underWriteLock p true es
  | _, .unlockW :: es => underWriteLock p false es
  | held, e :: es => (!p e || held) && underWriteLock p held es

/-- Scans a trace with the current read-lock state `r` and write-lock state
`w`: `true` iff every event satisfying `p` occurs while neither lock is
held. -/
def outsideLocks (p : Event → Bool) : Bool → Bool → List Event → Bool
  | _, _, [] => true
  | _, w, .lockR :: es => outsideLocks p true w es
  | _, w, .unlockR :: es => outsideLocks p false w es
  | r, _, .lockW :: es => outsideLocks p r true es
  | r, _, .unlockW :: es => outsideLocks p r false es
  | r, w, e :: es => (!p e || (!r && !w)) && outsideLocks p r w es

/-- `true` iff, in the trace, every token-endpoint network call happens
while neither lock is held, every credential replacement happens under the
write lock, and every persistence attempt happens with no lock held. -/
def lockDisciplineOk (es : List Event) : Bool :=
  outsideLocks isTokenCall false false es
    && underWriteLock isSetCredential false es
    && outsideLocks isPersist false false es

/-! ## Concrete fixtures for witnesses and counterexamples -/

/-- A token response holding a refresh token (as issued by the endpoint). -/
def sampleToken : TokenResponse :=
  ⟨"id0", "Bearer", 0, "", "openid offline_access", "rt0", 7776000⟩

/-- A second, distinct token response (the one a refresh/re-auth returns). -/
def sampleToken2 : TokenResponse :=
  ⟨"id1", "Bearer", 0, "", "openid offline_access", "rt1", 7776000⟩

/-- A concrete configuration with the default 5-minute refresh buffer. -/
def sampleConfig : Config :=
  ⟨"user@example.com", "hunter2", "847", 5 * minute⟩

/-- Client state holding `sampleToken` with local expiry at instant 1000. -/
def stateWithToken : ClientState := ⟨some sampleToken, 1000⟩

/-- Client state of a freshly constructed client with nothing on disk. -/
def stateNoToken : ClientState := ⟨none, 0⟩

/-- Environment at instant 500 (before `stateWithToken`'s expiry); both
endpoint replies are transport errors, so any network interaction would be
visible as a failure. -/
def envFresh : AuthEnv :=
  ⟨sampleConfig, 500, .transportError, .transportError, true, fun _ => .parseError⟩

/-- Environment at instant 2000 (after `stateWithToken`'s expiry): the
refresh attempt dies at the transport level, while a password authentication
would succeed. -/
def envRefreshTransportErr : AuthEnv :=
  ⟨sampleConfig, 2000, .response 200 (some sampleToken2), .transportError, true,
    fun _ => .parseError⟩

/-- Environment at instant 2000: the refresh attempt is answered with
HTTP 400, and a password authentication succeeds. -/
def envRefreshNon200 : AuthEnv :=
  ⟨sampleConfig, 2000, .response 200 (some sampleToken2), .response 400 none, true,
    fun _ => .parseError⟩

/-- Environment at instant 2000: authentication and refresh both succeed,
but persisting the tokens fails. -/
def envSaveFails : AuthEnv :=
  ⟨sampleConfig, 2000, .response 200 (some sampleToken2),
    .response 200 (some sampleToken2), false, fun _ => .parseError⟩

/-- Environment at instant 1000 — exactly the local expiry of
`stateWithToken` (the boundary of the freshness check). -/
def envAtExpiry : AuthEnv :=
  ⟨sampleConfig, 1000, .response 200 (some sampleToken2), .response 400 none, true,
    fun _ => .parseError⟩

/-- A concrete receipts payload. -/
def sampleRWC : ReceiptsWithCountsResponse :=
  ⟨5, 3, 1, 0, [⟨"21134300501862509051323"⟩]⟩

/-- Receipts environment: fresh credential, first reply a bare object. -/
def rEnvObjectOk : ReceiptsEnv :=
  ⟨envFresh, .response 200 (some (.objectShape sampleRWC, [])),
    .response 200 (some (.objectShape sampleRWC, []))⟩

/-- Receipts environment: fresh credential, both replies HTTP 500 — the
first call fails without its object-shape decode ever failing. -/
def rEnvHttp500 : ReceiptsEnv :=
  ⟨envFresh, .response 500 none, .response 500 none⟩

/-- Receipts environment: fresh credential, both replies deliver the payload
as a single-element array, so the object-shape decode fails structurally and
the re-issued array decode succeeds. -/
def rEnvArray : ReceiptsEnv :=
  ⟨envFresh, .response 200 (some (.arrayShape [sampleRWC], [])),
    .response 200 (some (.arrayShape [sampleRWC], []))⟩

/-- A concrete store holding an unrelated token file. -/
def sampleStore : TokenStore :=
  ⟨some [("id_token", .s "stale")]⟩

/-! ## Helper lemmas (shared across the claim theorems) -/

/-- A successful `authenticate` always leaves a non-nil credential. -/
theorem authenticate_ok_token_isSome (env : AuthEnv) (s : ClientState)
    (h : (authenticate env s).result = .ok ()) :
    (authenticate env s).state.token.isSome := by
  cases hr : env.authReply with
  | transportError => simp [authenticate, hr] at h
  | response st d =>
      by_cases hst : st = 200
      · cases d with
        | none => simp [authenticate, hr, hst] at h
        | some tr => simp [authenticate, hr, hst]
      · simp [authenticate, hr, hst] at h

/-- A successful `refreshToken` always leaves a non-nil credential. -/
theorem refreshToken_ok_token_isSome (env : AuthEnv) (s : ClientState)
    (h : (refreshToken env s).result = .ok ()) :
    (refreshToken env s).state.token.isSome := by
  cases hr : env.refreshReply with
  | transportError => simp [refreshToken, hr] at h
  | response st d =>
      by_cases hst : st = 200
      · cases d with
        | none => simp [refreshToken, hr, hst] at h
        | some tr => simp [refreshToken, hr, hst]
      · have hres : (refreshToken env s).result = (authenticate env s).result := by
          simp [refreshToken, hr, hst]
        have hstate : (refreshToken env s).state = (authenticate env s).state := by
          simp [refreshToken, hr, hst]
        rw [hstate]
        exact authenticate_ok_token_isSome env s (hres ▸ h)

/-- A successful `refreshTokenIfNeeded` always leaves a non-nil credential. -/
theorem ensureFresh_ok_token_isSome (env : AuthEnv) (s : ClientState)
    (h : (refreshTokenIfNeeded env s).result = .ok ()) :
    (refreshTokenIfNeeded env s).state.token.isSome := by
  by_cases hn : needsRefresh env s
  · by_cases hrt : hasRefreshToken s
    · have hres : (refreshTokenIfNeeded env s).result = (refreshToken env s).result := by
        simp [refreshTokenIfNeeded, hn, hrt]
      have hstate : (refreshTokenIfNeeded env s).state = (refreshToken env s).state := by
        simp [refreshTokenIfNeeded, hn, hrt]
      rw [hstate]
      exact refreshToken_ok_token_isSome env s (hres ▸ h)
    · have hres : (refreshTokenIfNeeded env s).result = (authenticate env s).result := by
        simp [refreshTokenIfNeeded, hn, hrt]
      have hstate : (refreshTokenIfNeeded env s).state = (authenticate env s).state := by
        simp [refreshTokenIfNeeded, hn, hrt]
      rw [hstate]
      exact authenticate_ok_token_isSome env s (hres ▸ h)
  · have hstate : (refreshTokenIfNeeded env s).state = s := by
      simp [refreshTokenIfNeeded, hn]
    have htok : s.token.isNone = false := by
      rcases hnn : s.token.isNone with _ | _
      · rfl
      · exact absurd (by simp [needsRefresh, hnn]) hn
    rw [hstate]
    simp [Option.isSome_iff_ne_none]
    intro hc
    rw [hc] at htok
    simp at htok

/-- `authenticate` performs exactly one token-endpoint network call, on
every path. -/
theorem authenticate_one_tokenCall (env : AuthEnv) (s : ClientState) :
    tokenCalls (authenticate env s).events = 1 := by
  cases hr : env.authReply with
  | transportError => simp [authenticate, hr, tokenCalls, isTokenCall]
  | response st d =>
      by_cases hst : st = 200
      · cases d with
        | none => simp [authenticate, hr, hst, tokenCalls, isTokenCall]
        | some tr =>
            cases hsv : env.saveOk <;>
              simp [authenticate, hr, hst, hsv, tokenCalls, isTokenCall, List.countP_append,
                List.countP_cons]
      · simp [authenticate, hr, hst, tokenCalls, isTokenCall]

/-! ## C3 — expiry computation -/

/-- C3: for every identity token, when the embedded numeric `exp` claim is
parsable `calculateTokenExpiry` returns exactly the claim instant
(`time.Unix(exp, 0)`, i.e. `e` seconds) minus the configured safety buffer;
when the token is unparsable or the claim is missing/non-numeric it returns
`now + 50` minutes. -/
theorem calculateTokenExpiry_spec (cfg : Config) (now : Instant) (e : Int) :
    calculateTokenExpiry cfg now (.expClaim e) = e * nsPerSecond - cfg.tokenRefreshBuffer
      ∧ calculateTokenExpiry cfg now .parseError = now + 50 * minute
      ∧ calculateTokenExpiry cfg now .noNumericExp = now + 50 * minute :=
  ⟨rfl, rfl, rfl⟩

/-! ## C4 — fresh credential: ensure-fresh is a pure no-op -/

/-- C4: whenever a credential exists and `now` is before the local expiry,
`refreshTokenIfNeeded` returns success immediately: its whole observable
behaviour is the read-lock acquisition/release of the freshness check — no
network call, and the in-memory credential and expiry are unchanged. -/
theorem refreshTokenIfNeeded_fresh_noop (env : AuthEnv) (s : ClientState)
    (tr : TokenResponse) (htok : s.token = some tr)
    (hfresh : env.now < s.tokenExpiry) :
    refreshTokenIfNeeded env s = ⟨.ok (), s, [.lockR, .unlockR]⟩
      ∧ tokenCalls (refreshTokenIfNeeded env s).events = 0 := by
  have h1 : s.token.isNone = false := by rw [htok]; rfl
  have h2 : decide (env.now > s.tokenExpiry) = false := by
    simp only [decide_eq_false_iff_not]
    exact not_lt.mpr (le_of_lt hfresh)
  have hn : needsRefresh env s = false := by simp [needsRefresh, h1, h2]
  constructor
  · simp [refreshTokenIfNeeded, hn]
  · simp [refreshTokenIfNeeded, hn, tokenCalls, isTokenCall]

/-- C4 witness: at instant 500, with a credential expiring at 1000, the
ensure-fresh operation is exactly the no-op read-locked check. -/
theorem refreshTokenIfNeeded_fresh_noop_witness :
    refreshTokenIfNeeded envFresh stateWithToken
        = ⟨.ok (), stateWithToken, [.lockR, .unlockR]⟩
      ∧ tokenCalls (refreshTokenIfNeeded envFresh stateWithToken).events = 0 :=
  refreshTokenIfNeeded_fresh_noop envFresh stateWithToken sampleToken rfl (by decide)

/-! ## C10 — no nil-credential dereference after a successful ensure-fresh -/

/-- C10: for a single-threaded caller, a successful `refreshTokenIfNeeded`
always leaves a non-nil in-memory token (also starting from a freshly
constructed client with no persisted tokens, `token = none`), and therefore
`executeGraphQL`'s read of `c.token.IDToken` never dereferences a nil
credential: its result is never the modelled nil-pointer panic, on any
environment, start state and reply. -/
theorem ensureFresh_success_no_nil_deref (env : AuthEnv) (s : ClientState) :
    ((refreshTokenIfNeeded env s).result = .ok () →
        (refreshTokenIfNeeded env s).state.token.isSome)
      ∧ ∀ (α : Type) (reply : GraphQLReply α),
          (executeGraphQL env reply s).result ≠ .error .nilTokenPanic := by
  refine ⟨ensureFresh_ok_token_isSome env s, ?_⟩
  intro α reply
  simp only [executeGraphQL]
  cases hres : (refreshTokenIfNeeded env s).result with
  | error e => simp
  | ok u =>
      cases u
      have hs := ensureFresh_ok_token_isSome env s hres
      cases htok : (refreshTokenIfNeeded env s).state.token with
      | none => rw [htok] at hs; simp at hs
      | some tr =>
          simp only [htok]
          cases reply with
          | transportError => simp
          | response st body =>
              by_cases hst : st = 200
              · cases body with
                | none => simp [hst]
                | some p =>
                    cases p with
                    | mk a errs =>
                        by_cases herr : errs.length > 0
                        · simp [hst, herr]
                        · simp [hst, herr]
              · simp [hst]

/-- C10 witness: a fresh client with no token on disk whose ensure-fresh
succeeds via password authentication ends up with a non-nil token, and a
concrete GraphQL exchange is not the nil panic. -/
theorem ensureFresh_success_no_nil_deref_witness :
    (refreshTokenIfNeeded envRefreshNon200 stateNoToken).state.token.isSome
      ∧ (executeGraphQL envFresh
            (GraphQLReply.response 200 (some (sampleRWC, ([] : List String))))
            stateWithToken).result
          ≠ .error .nilTokenPanic :=
  ⟨(ensureFresh_success_no_nil_deref envRefreshNon200 stateNoToken).1 (by decide),
    (ensureFresh_success_no_nil_deref envFresh stateWithToken).2
      ReceiptsWithCountsResponse _⟩

/-! ## C6 — non-empty GraphQL errors array is a failure -/

/-- C6: whenever `executeGraphQL` gets through its ensure-fresh check and
receives an HTTP 200 response whose envelope decodes with a non-empty
`errors` array, the call returns the GraphQL-errors failure carrying the
whole message list — the decoded target is not treated as a success. -/
theorem executeGraphQL_nonempty_errors_fail {α : Type} (env : AuthEnv)
    (s : ClientState) (a : α) (errs : List String)
    (hok : (refreshTokenIfNeeded env s).result = .ok ())
    (herrs : errs ≠ []) :
    (executeGraphQL env (.response 200 (some (a, errs))) s).result
      = .error (.graphqlErrors errs) := by
  have hs := ensureFresh_ok_token_isSome env s hok
  have hlen : errs.length > 0 := List.length_pos.mpr herrs
  simp only [executeGraphQL]
  cases htok : (refreshTokenIfNeeded env s).state.token with
  | none => rw [htok] at hs; simp at hs
  | some tr => simp [hok, htok, hlen]

/-- C6 witness: a 200 response carrying two error messages alongside a
decodable payload fails with exactly those two messages. -/
theorem executeGraphQL_nonempty_errors_fail_witness :
    (executeGraphQL envFresh
        (GraphQLReply.response 200 (some (sampleRWC, ["boom", "bam"])))
        stateWithToken).result
      = .error (.graphqlErrors ["boom", "bam"]) :=
  executeGraphQL_nonempty_errors_fail envFresh stateWithToken sampleRWC
    ["boom", "bam"] (by decide) (by decide)

/-- Every `authenticate` trace contains the password-grant network call. -/
theorem authenticate_password_call_mem (env : AuthEnv) (s : ClientState) :
    Event.netTokenCall .password ∈ (authenticate env s).events := by
  cases hr : env.authReply with
  | transportError => simp [authenticate, hr]
  | response st d =>
      by_cases hst : st = 200
      · cases d with
        | none => simp [authenticate, hr, hst]
        | some tr => simp [authenticate, hr, hst]
      · simp [authenticate, hr, hst]

/-! ## C7 — persistence failure is never escalated -/

/-- C7: after a successful authentication or refresh (a 200 reply with a
decodable body), the call returns success for both values of the
`SaveTokens` outcome `env.saveOk` (which is universally quantified here): a
persistence failure only adds the warning log to the trace.  The event trace
also shows that the in-memory credential replacement (`setCredential`, under
the write lock) strictly precedes the persistence attempt (`persist`). -/
theorem persist_failure_not_escalated (env : AuthEnv) (s : ClientState)
    (r : TokenResponse) :
    (env.authReply = .response 200 (some r) →
        (authenticate env s).result = .ok ()
          ∧ (authenticate env s).state.token = some r
          ∧ (authenticate env s).events
              = [.netTokenCall .password, .lockW, .setCredential, .unlockW, .persist]
                  ++ (if env.saveOk then [] else [.warnLog]))
      ∧ (env.refreshReply = .response 200 (some r) →
          (refreshToken env s).result = .ok ()
            ∧ (refreshToken env s).state.token = some r
            ∧ (refreshToken env s).events
                = [.lockR, .unlockR, .netTokenCall .refresh,
                    .lockW, .setCredential, .unlockW, .persist]
                    ++ (if env.saveOk then [] else [.warnLog])) := by
  constructor
  · intro h
    refine ⟨?_, ?_, ?_⟩ <;> simp [authenticate, h]
  · intro h
    refine ⟨?_, ?_, ?_⟩ <;> simp [refreshToken, h]

/-- C7 witness: with a failing token store, authentication still succeeds,
the credential is replaced, and the trace is the credential replacement
followed by the persistence attempt and the warning log. -/
theorem persist_failure_not_escalated_witness :
    (authenticate envSaveFails stateWithToken).result = .ok ()
      ∧ (authenticate envSaveFails stateWithToken).state.token = some sampleToken2
      ∧ (authenticate envSaveFails stateWithToken).events
          = [.netTokenCall .password, .lockW, .setCredential, .unlockW, .persist,
              .warnLog] := by
  have h := (persist_failure_not_escalated envSaveFails stateWithToken sampleToken2).1 rfl
  exact ⟨h.1, h.2.1, by rw [h.2.2]; rfl⟩

/-! ## C1 — refresh-failure fallback (corrected) -/

/-- C1 counterexample: at instant 2000 (credential stale, refresh token
present) the refresh attempt dies at the transport level while a password
authentication would succeed (`envRefreshTransportErr`), yet the
ensure-fresh operation surfaces the refresh transport error: no password
call is attempted and the overall call fails — refuting the claim that any
refresh error falls back to authentication. -/
theorem refresh_transport_error_no_fallback_cex :
    (refreshTokenIfNeeded envRefreshTransportErr stateWithToken).result
        = .error "executing refresh request"
      ∧ (authenticate envRefreshTransportErr stateWithToken).result = .ok ()
      ∧ tokenCalls (refreshTokenIfNeeded envRefreshTransportErr stateWithToken).events = 1
      ∧ Event.netTokenCall .password
          ∉ (refreshTokenIfNeeded envRefreshTransportErr stateWithToken).events :=
  ⟨by decide, by decide, by decide, by decide⟩

/-- C1 amended: `refreshToken` falls back to full password authentication
exactly when the refresh HTTP response arrives with a non-200 status (the
fallback then returns the authentication outcome verbatim, so it succeeds
whenever authentication succeeds, and it does issue the password call);
a transport-level failure or a 200-response decode failure of the refresh
attempt surfaces the refresh error without any fallback. -/
theorem refreshToken_fallback_exactly_on_non200 (env : AuthEnv) (s : ClientState) :
    (∀ st d, env.refreshReply = .response st d → st ≠ 200 →
        (refreshToken env s).result = (authenticate env s).result
          ∧ (refreshToken env s).state = (authenticate env s).state
          ∧ Event.netTokenCall .password ∈ (refreshToken env s).events)
      ∧ (env.refreshReply = .transportError →
          refreshToken env s
            = ⟨.error "executing refresh request", s,
                [.lockR, .unlockR, .netTokenCall .refresh]⟩)
      ∧ (env.refreshReply = .response 200 none →
          refreshToken env s
            = ⟨.error "decoding refresh response", s,
                [.lockR, .unlockR, .netTokenCall .refresh]⟩) := by
  refine ⟨?_, ?_, ?_⟩
  · intro st d h hne
    refine ⟨?_, ?_, ?_⟩
    · simp [refreshToken, h, hne]
    · simp [refreshToken, h, hne]
    · simp [refreshToken, h, hne, authenticate_password_call_mem]
  · intro h
    simp [refreshToken, h]
  · intro h
    simp [refreshToken, h]

/-- C1 amended witness: an HTTP 400 refresh reply makes `refreshToken`
return exactly the (successful) authentication outcome. -/
theorem refreshToken_fallback_exactly_on_non200_witness :
    (refreshToken envRefreshNon200 stateWithToken).result
        = (authenticate envRefreshNon200 stateWithToken).result
      ∧ (refreshToken envRefreshNon200 stateWithToken).result = .ok () := by
  have h := (refreshToken_fallback_exactly_on_non200 envRefreshNon200 stateWithToken).1
    400 none rfl (by decide)
  exact ⟨h.1, by rw [h.1]; decide⟩

/-- The possible event traces of `authenticate`: the bare network call (on
any failure) or the full replace-and-persist sequence, with the warning log
appended when the save fails. -/
theorem authenticate_events_cases (env : AuthEnv) (s : ClientState) :
    (authenticate env s).events = [.netTokenCall .password]
      ∨ (authenticate env s).events
          = [.netTokenCall .password, .lockW, .setCredential, .unlockW, .persist]
      ∨ (authenticate env s).events
          = [.netTokenCall .password, .lockW, .setCredential, .unlockW, .persist,
              .warnLog] := by
  cases hr : env.authReply with
  | transportError => exact Or.inl (by simp [authenticate, hr])
  | response st d =>
      by_cases hst : st = 200
      · cases d with
        | none => exact Or.inl (by simp [authenticate, hr, hst])
        | some tr =>
            cases hsv : env.saveOk
            · exact Or.inr (Or.inr (by simp [authenticate, hr, hst, hsv]))
            · exact Or.inr (Or.inl (by simp [authenticate, hr, hst, hsv]))
      · exact Or.inl (by simp [authenticate, hr, hst])

/-- The possible event traces of `refreshToken`: the read-locked snapshot
plus the refresh call, optionally followed by the `authenticate` trace (on
non-200) or by the replace-and-persist sequence (on success). -/
theorem refreshToken_events_cases (env : AuthEnv) (s : ClientState) :
    (refreshToken env s).events = [.lockR, .unlockR, .netTokenCall .refresh]
      ∨ (refreshToken env s).events
          = [.lockR, .unlockR, .netTokenCall .refresh] ++ (authenticate env s).events
      ∨ (refreshToken env s).events
          = [.lockR, .unlockR, .netTokenCall .refresh, .lockW, .setCredential,
              .unlockW, .persist]
      ∨ (refreshToken env s).events
          = [.lockR, .unlockR, .netTokenCall .refresh, .lockW, .setCredential,
              .unlockW, .persist, .warnLog] := by
  cases hr : env.refreshReply with
  | transportError => exact Or.inl (by simp [refreshToken, hr])
  | response st d =>
      by_cases hst : st = 200
      · cases d with
        | none => exact Or.inl (by simp [refreshToken, hr, hst])
        | some tr =>
            cases hsv : env.saveOk
            · exact Or.inr (Or.inr (Or.inr (by simp [refreshToken, hr, hst, hsv])))
            · exact Or.inr (Or.inr (Or.inl (by simp [refreshToken, hr, hst, hsv])))
      · exact Or.inr (Or.inl (by simp [refreshToken, hr, hst]))

/-- The possible event traces of `refreshTokenIfNeeded`: the read-locked
freshness check alone, or followed by the refresh / authenticate trace. -/
theorem ensureFresh_events_cases (env : AuthEnv) (s : ClientState) :
    (refreshTokenIfNeeded env s).events = [.lockR, .unlockR]
      ∨ (refreshTokenIfNeeded env s).events
          = [.lockR, .unlockR] ++ (refreshToken env s).events
      ∨ (refreshTokenIfNeeded env s).events
          = [.lockR, .unlockR] ++ (authenticate env s).events := by
  by_cases hn : needsRefresh env s
  · by_cases hrt : hasRefreshToken s
    · exact Or.inr (Or.inl (by simp [refreshTokenIfNeeded, hn, hrt]))
    · exact Or.inr (Or.inr (by simp [refreshTokenIfNeeded, hn, hrt]))
  · exact Or.inl (by simp [refreshTokenIfNeeded, hn])

/-! ## C5 — number of token-endpoint calls per stale ensure-fresh (corrected) -/

/-- C5 counterexample: at instant 2000 the credential is stale with a
refresh token present; the refresh attempt is answered HTTP 400, so the code
falls back to authentication — a single `refreshTokenIfNeeded` invocation
performs two token-endpoint network calls (one refresh-grant and one
password-grant, both present in the trace), refuting "exactly one … either a
refresh or a full authentication, not both".  And at instant 1000 — `now`
exactly AT the local expiry, which the claim covers via "at or past" — the
strict `time.Now().After` check still reports fresh and zero network calls
are made, refuting "exactly one" at the boundary as well. -/
theorem ensureFresh_two_calls_on_fallback_cex :
    tokenCalls (refreshTokenIfNeeded envRefreshNon200 stateWithToken).events = 2
      ∧ Event.netTokenCall .refresh
          ∈ (refreshTokenIfNeeded envRefreshNon200 stateWithToken).events
      ∧ Event.netTokenCall .password
          ∈ (refreshTokenIfNeeded envRefreshNon200 stateWithToken).events
      ∧ (refreshTokenIfNeeded envRefreshNon200 stateWithToken).result = .ok ()
      ∧ envAtExpiry.now = stateWithToken.tokenExpiry
      ∧ tokenCalls (refreshTokenIfNeeded envAtExpiry stateWithToken).events = 0 :=
  ⟨by decide, by decide, by decide, by decide, by decide, by decide⟩

/-- C5 amended: for a single-threaded caller, whenever no credential exists
or `now` is strictly after the local expiry (the freshness check uses strict
`After`), one `refreshTokenIfNeeded` invocation performs exactly one
token-endpoint network call — except when a refresh attempt is answered with
a non-200 status, in which case the authenticate fallback makes it exactly
two. -/
theorem ensureFresh_token_call_count (env : AuthEnv) (s : ClientState)
    (h : s.token = none ∨ env.now > s.tokenExpiry) :
    tokenCalls (refreshTokenIfNeeded env s).events
      = if hasRefreshToken s && isNon200 env.refreshReply then 2 else 1 := by
  have hn : needsRefresh env s = true := by
    rcases h with h | h
    · simp [needsRefresh, h]
    · simp [needsRefresh, h]
  by_cases hrt : hasRefreshToken s
  · have hev : (refreshTokenIfNeeded env s).events
        = [Event.lockR, Event.unlockR] ++ (refreshToken env s).events := by
      simp [refreshTokenIfNeeded, hn, hrt]
    rw [hev]
    cases hr : env.refreshReply with
    | transportError =>
        simp [refreshToken, hr, hrt, isNon200, tokenCalls, List.countP_append,
          List.countP_cons, isTokenCall]
    | response st d =>
        by_cases hst : st = 200
        · subst hst
          cases d with
          | none =>
              simp [refreshToken, hr, hrt, isNon200, tokenCalls, List.countP_append,
                List.countP_cons, isTokenCall]
          | some tr =>
              cases hsv : env.saveOk <;>
                simp [refreshToken, hr, hrt, hsv, isNon200, tokenCalls,
                  List.countP_append, List.countP_cons, isTokenCall]
        · have h1 : List.countP isTokenCall (authenticate env s).events = 1 :=
            authenticate_one_tokenCall env s
          have hev2 : (refreshToken env s).events
              = [Event.lockR, Event.unlockR, Event.netTokenCall .refresh]
                  ++ (authenticate env s).events := by
            simp [refreshToken, hr, hst]
          rw [hev2]
          simp [hrt, hr, hst, isNon200, tokenCalls, List.countP_append,
            List.countP_cons, isTokenCall, h1]
  · have hev : (refreshTokenIfNeeded env s).events
        = [Event.lockR, Event.unlockR] ++ (authenticate env s).events := by
      simp [refreshTokenIfNeeded, hn, hrt]
    have h1 : List.countP isTokenCall (authenticate env s).events = 1 :=
      authenticate_one_tokenCall env s
    rw [hev]
    simp [hrt, tokenCalls, List.countP_append, List.countP_cons, isTokenCall, h1]

/-- C5 amended witness: a stale client without any credential performs
exactly one token-endpoint call. -/
theorem ensureFresh_token_call_count_witness :
    tokenCalls (refreshTokenIfNeeded envRefreshNon200 stateNoToken).events = 1 := by
  have h := ensureFresh_token_call_count envRefreshNon200 stateNoToken (Or.inl rfl)
  rw [h]; decide

/-! ## C8 — lock discipline of the auth/refresh network call (corrected) -/

/-- C8 counterexample: in a concrete successful `authenticate` run the
token-endpoint network call is NOT performed under the exclusive (write)
lock — the trace is the network call first, then the write-locked
credential replacement — refuting "the write lock is held for the duration
of the network call". -/
theorem authenticate_net_call_outside_write_lock_cex :
    underWriteLock isTokenCall false
        (authenticate envRefreshNon200 stateNoToken).events = false
      ∧ (authenticate envRefreshNon200 stateNoToken).result = .ok ()
      ∧ (authenticate envRefreshNon200 stateNoToken).events
          = [.netTokenCall .password, .lockW, .setCredential, .unlockW, .persist] :=
  ⟨by decide, by decide, by decide⟩

/-- C8 amended: in every execution of `authenticate`, `refreshToken` and
`refreshTokenIfNeeded`, the token-endpoint network call is performed while
holding no lock at all; the exclusive (write) lock is held exactly for the
in-memory credential replacement; and the persistence attempt runs after
the write lock has been released. -/
theorem lock_discipline (env : AuthEnv) (s : ClientState) :
    lockDisciplineOk (authenticate env s).events = true
      ∧ lockDisciplineOk (refreshToken env s).events = true
      ∧ lockDisciplineOk (refreshTokenIfNeeded env s).events = true := by
  refine ⟨?_, ?_, ?_⟩
  · rcases authenticate_events_cases env s with h | h | h <;> rw [h] <;> decide
  · rcases refreshToken_events_cases env s with h | h | h | h
    · rw [h]; decide
    · rw [h]
      rcases authenticate_events_cases env s with h2 | h2 | h2 <;> rw [h2] <;> decide
    · rw [h]; decide
    · rw [h]; decide
  · rcases ensureFresh_events_cases env s with h | h | h
    · rw [h]; decide
    · rw [h]
      rcases refreshToken_events_cases env s with h2 | h2 | h2 | h2
      · rw [h2]; decide
      · rw [h2]
        rcases authenticate_events_cases env s with h3 | h3 | h3 <;> rw [h3] <;> decide
      · rw [h2]; decide
      · rw [h2]; decide
    · rw [h]
      rcases authenticate_events_cases env s with h2 | h2 | h2 <;> rw [h2] <;> decide

/-- The lifecycle operations never touch the GraphQL endpoint. -/
theorem ensureFresh_no_gqlCalls (env : AuthEnv) (s : ClientState) :
    gqlCalls (refreshTokenIfNeeded env s).events = 0 := by
  rcases ensureFresh_events_cases env s with h | h | h
  · rw [h]; decide
  · rw [h]
    rcases refreshToken_events_cases env s with h2 | h2 | h2 | h2
    · rw [h2]; decide
    · rw [h2]
      rcases authenticate_events_cases env s with h3 | h3 | h3 <;> rw [h3] <;> decide
    · rw [h2]; decide
    · rw [h2]; decide
  · rw [h]
    rcases authenticate_events_cases env s with h2 | h2 | h2 <;> rw [h2] <;> decide

/-- A successful `executeGraphQL` performed its ensure-fresh check and then
exactly the read-locked token snapshot and one GraphQL network call. -/
theorem executeGraphQL_ok_events {α : Type} (env : AuthEnv)
    (reply : GraphQLReply α) (s : ClientState) (a : α)
    (h : (executeGraphQL env reply s).result = .ok a) :
    (executeGraphQL env reply s).events
      = (refreshTokenIfNeeded env s).events ++ [.lockR, .unlockR, .netGraphQLCall] := by
  simp only [executeGraphQL] at h ⊢
  cases hres : (refreshTokenIfNeeded env s).result with
  | error e => simp only [hres] at h; simp at h
  | ok u =>
      cases u
      simp only [hres] at h ⊢
      cases htok : (refreshTokenIfNeeded env s).state.token with
      | none => simp only [htok] at h; simp at h
      | some tr =>
          simp only [htok] at h ⊢
          cases reply with
          | transportError => simp at h
          | response st body =>
              by_cases hst : st = 200
              · cases body with
                | none => simp [hst] at h
                | some p =>
                    cases p with
                    | mk a2 errs =>
                        by_cases herr : errs.length > 0
                        · simp [hst, herr] at h
                        · simp [hst, herr]
              · simp [hst] at h

/-! ## C2 — receipts shape fallback (corrected) -/

/-- C2 counterexample: with a fresh credential, the first (object-decoded)
receipts call is answered HTTP 500 — its object-shape decode is never even
attempted, let alone failed — yet `GetReceipts` still re-issues the query
with the array decode: two GraphQL network calls are made, refuting
"re-issued if and only if the object-shape decode fails". -/
theorem getReceipts_fallback_without_decode_failure_cex :
    gqlCalls (GetReceipts rEnvHttp500 stateWithToken).events = 2
      ∧ rEnvHttp500.reply1 = .response 500 none
      ∧ (GetReceipts rEnvHttp500 stateWithToken).result
          = .error (.combined (.httpStatus 500) (.httpStatus 500)) :=
  ⟨by decide, by decide, by decide⟩

/-- C2 amended: `GetReceipts` decodes the first response with the object
shape, and when that first call succeeds no fallback is invoked — the
result is the decoded object and exactly one GraphQL network call was
issued.  The query is re-issued with the array decode whenever the first
call fails for ANY reason (object-shape decode mismatch, but also non-2xx
status, non-empty GraphQL errors, transport failure or token-refresh
failure), not only on decode failure; the fallback returns element zero of
a non-empty decoded array, the empty array is "no receipt data returned",
and a second failure yields the combined error. -/
theorem getReceipts_object_first_fallback (env : ReceiptsEnv) (s : ClientState) :
    (∀ obj, (receiptsFirstCall env s).result = .ok obj →
        (GetReceipts env s).result = .ok obj
          ∧ (GetReceipts env s).events = (receiptsFirstCall env s).events
          ∧ gqlCalls (GetReceipts env s).events = 1)
      ∧ (∀ e1, (receiptsFirstCall env s).result = .error e1 →
          (GetReceipts env s).events
              = (receiptsFirstCall env s).events ++ (receiptsSecondCall env s).events
            ∧ (∀ r rs, (receiptsSecondCall env s).result = .ok (r :: rs) →
                (GetReceipts env s).result = .ok r)
            ∧ ((receiptsSecondCall env s).result = .ok [] →
                (GetReceipts env s).result = .error .noData)
            ∧ (∀ e2, (receiptsSecondCall env s).result = .error e2 →
                (GetReceipts env s).result = .error (.combined e1 e2))) := by
  constructor
  · intro obj h
    refine ⟨by simp [GetReceipts, h], by simp [GetReceipts, h], ?_⟩
    have hev : (GetReceipts env s).events = (receiptsFirstCall env s).events := by
      simp [GetReceipts, h]
    rw [hev]
    have hfc := executeGraphQL_ok_events env.auth
      (toGraphQLReply decodeReceiptsObject env.reply1) s obj h
    have hz := ensureFresh_no_gqlCalls env.auth s
    rw [receiptsFirstCall, hfc]
    have hz2 : List.countP isGqlCall (refreshTokenIfNeeded env.auth s).events = 0 := hz
    simp only [gqlCalls, List.countP_append, hz2]
    decide
  · intro e1 h
    refine ⟨?_, ?_, ?_, ?_⟩
    · cases h2 : (receiptsSecondCall env s).result with
      | error e2 => simp [GetReceipts, h, h2]
      | ok rs => cases rs <;> simp [GetReceipts, h, h2]
    · intro r rs h2
      simp [GetReceipts, h, h2]
    · intro h2
      simp [GetReceipts, h, h2]
    · intro e2 h2
      simp [GetReceipts, h, h2]

/-- C2 amended witness: a bare-object first reply yields that object with a
single GraphQL call, and an array-shaped payload (object decode fails
structurally) yields element zero via the re-issued array decode. -/
theorem getReceipts_object_first_fallback_witness :
    (GetReceipts rEnvObjectOk stateWithToken).result = .ok sampleRWC
      ∧ gqlCalls (GetReceipts rEnvObjectOk stateWithToken).events = 1
      ∧ (GetReceipts rEnvArray stateWithToken).result = .ok sampleRWC := by
  have h1 := (getReceipts_object_first_fallback rEnvObjectOk stateWithToken).1
    sampleRWC (by decide)
  have h2 := ((getReceipts_object_first_fallback rEnvArray stateWithToken).2
    GQLError.decode (by decide)).2.1 sampleRWC [] (by decide)
  exact ⟨h1.1, h1.2.2, h2⟩

/-! ## C9 — stored-credential round trip -/

/-- C9: saving a stored-credential record and reloading it yields
field-for-field identical values for the identity token, refresh token,
computed local expiry and refresh-token expiry, while the last-update
timestamp is rewritten to the save time by `SaveTokens` and reloaded exactly
as written (the record equation below fixes all five fields at once). -/
theorem storedTokens_roundtrip (tk : StoredTokens) (now : Instant)
    (store : TokenStore) :
    LoadTokens (SaveTokens now tk store).2 = .ok (some { tk with updatedAt := now })
      ∧ (SaveTokens now tk store).1 = { tk with updatedAt := now } :=
  ⟨rfl, rfl⟩

end Costco
